import Mathlib

/-!
Verification of the JDK-requirements resolver (`requirements.ts`, provided as
`src/unnamed/part_000`) and the Lombok agent resolver (`src/lombokSupport.ts`)
of the coc-java extension.

The TypeScript sources are shallowly embedded below.  Host probes (filesystem
existence checks, `jdk-utils` runtime detection, the workspace persistent
store, the downloaded-JRE lookup) are passed in as explicit environment
records; the decision logic itself is translated statement by statement.
JavaScript promise rejection is modelled by `Except`: the first settle of the
promise (`reject` or the final `resolve`) determines the result, and code that
keeps running after an early `reject` cannot change it, so each `reject` site
becomes an early `Except.error` return.  Thrown JavaScript exceptions
(`TypeError` on a `null` member access, `semver`'s `Invalid Version`) are
likewise modelled as `Except.error` values of their own error type.
-/

deriving instance DecidableEq for Except

namespace CocJava

/-- Numeric value of a run of decimal digit characters (the effect of
JavaScript `parseInt` on a `\d+` regex match). -/
def digitsToNat (cs : List Char) : Nat :=
  cs.foldl (fun n c => n * 10 + (c.toNat - 48)) 0

/-- Index search over character lists: first index at which `pat` occurs as a
prefix of the remaining list. -/
def indexOfAux (pat : List Char) : List Char → Nat → Option Nat
  | [], i => if pat = [] then some i else none
  | c :: cs, i =>
    if pat.isPrefixOf (c :: cs) then some i else indexOfAux pat cs (i + 1)

/-- JavaScript `String.prototype.indexOf` (as an `Option` instead of `-1`):
index of the first occurrence of `pat` in `s`. -/
def strIndexOf (s pat : String) : Option Nat :=
  indexOfAux pat.toList s.toList 0

/-- JavaScript `s.indexOf(pat) > -1`: substring containment. -/
def containsSubstr (s pat : String) : Bool :=
  (strIndexOf s pat).isSome

/-- JavaScript `String.prototype.replace` with a plain-string pattern: replace
only the first occurrence of `pat` by `repl`. -/
def replaceFirst (s pat repl : String) : String :=
  match strIndexOf s pat with
  | none => s
  | some i => s.take i ++ repl ++ s.drop (i + pat.length)

/-- JavaScript `String.prototype.startsWith`. -/
def strStartsWith (s pat : String) : Bool :=
  pat.toList.isPrefixOf s.toList

/-- JavaScript `String.prototype.endsWith` (the effect of a `$`-anchored
regex suffix). -/
def strEndsWith (s pat : String) : Bool :=
  pat.toList.isSuffixOf s.toList

/-- Worker for `strSplitOn`: splits at each leftmost, non-overlapping
occurrence of the non-empty pattern `p :: ps`.  The structural `fuel`
argument (initialised to the input length, enough because every step
consumes at least one character) keeps the recursion kernel-reducible. -/
def splitOnAux (p : Char) (ps : List Char) : Nat → List Char → List Char → List (List Char)
  | _, [], acc => [acc.reverse]
  | 0, cs, acc => [acc.reverse ++ cs]
  | fuel + 1, c :: rest, acc =>
    if (p :: ps).isPrefixOf (c :: rest) then
      acc.reverse :: splitOnAux p ps fuel (rest.drop ps.length) []
    else
      splitOnAux p ps fuel rest (c :: acc)

/-- JavaScript `String.prototype.split` with a plain-string separator. -/
def strSplitOn (s pat : String) : List String :=
  match pat.toList with
  | [] => [s]
  | p :: ps =>
    (splitOnAux p ps s.toList.length s.toList []).map (fun cs => String.mk cs)

/-- Stable insertion used by `stableSort`: places `x` in front of the first
element `y` of the (already sorted) list with `le x y`, so that an element
inserted on top of later-discovered elements keeps its place ahead of ties. -/
def insertS (le : α → α → Bool) (x : α) : List α → List α
  | [] => [x]
  | y :: ys => if le x y then x :: y :: ys else y :: insertS le x ys

/-- Stable sort by the total preorder `le`.  `Array.prototype.sort` is
guaranteed stable by the ECMAScript specification; a comparator
`(a, b) => k a - k b` sorts ascending by the key `k` keeping ties in array
order, which is exactly what this insertion sort computes with
`le a b = (k a ≤ k b)`. -/
def stableSort (le : α → α → Bool) : List α → List α
  | [] => []
  | x :: xs => insertS le x (stableSort le xs)

theorem insertS_decomp (le : α → α → Bool) (x : α) (t : List α) :
    ∃ u v, t = u ++ v ∧ insertS le x t = u ++ x :: v ∧ ∀ y ∈ u, le x y = false := by
  induction t with
  | nil => exact ⟨[], [], rfl, rfl, by simp⟩
  | cons y ys ih =>
    by_cases h : le x y = true
    · exact ⟨[], y :: ys, rfl, by simp [insertS, h], by simp⟩
    · obtain ⟨u, v, hts, hins, hu⟩ := ih
      refine ⟨y :: u, v, by simp [hts], by simp [insertS, h, hins], ?_⟩
      intro z hz
      rcases List.mem_cons.mp hz with rfl | hz
      · exact Bool.eq_false_iff.mpr h
      · exact hu z hz

theorem mem_insertS (le : α → α → Bool) (x a : α) (t : List α) :
    a ∈ insertS le x t ↔ a = x ∨ a ∈ t := by
  induction t with
  | nil => simp [insertS]
  | cons y ys ih =>
    by_cases h : le x y = true
    · simp [insertS, h]
    · simp [insertS, h, ih]
      tauto

theorem insertS_ne_nil (le : α → α → Bool) (x : α) (t : List α) :
    insertS le x t ≠ [] := by
  cases t with
  | nil => simp [insertS]
  | cons y ys =>
    by_cases h : le x y = true <;> simp [insertS, h]

theorem stableSort_eq_nil (le : α → α → Bool) {l : List α}
    (h : stableSort le l = []) : l = [] := by
  cases l with
  | nil => rfl
  | cons x xs => exact absurd h (insertS_ne_nil le x (stableSort le xs))

theorem mem_stableSort (le : α → α → Bool) (a : α) (l : List α) :
    a ∈ stableSort le l ↔ a ∈ l := by
  induction l with
  | nil => simp [stableSort]
  | cons x xs ih => simp [stableSort, mem_insertS, ih]

theorem pairwise_insertS (le : α → α → Bool)
    (htot : ∀ a b, le a b = true ∨ le b a = true)
    (htrans : ∀ a b c, le a b = true → le b c = true → le a c = true)
    (x : α) (t : List α) (ht : t.Pairwise (fun a b => le a b = true)) :
    (insertS le x t).Pairwise (fun a b => le a b = true) := by
  induction t with
  | nil => simp [insertS]
  | cons y ys ih =>
    rcases List.pairwise_cons.mp ht with ⟨hy, hys⟩
    by_cases h : le x y = true
    · rw [insertS, if_pos h]
      refine List.pairwise_cons.mpr ⟨?_, ht⟩
      intro z hz
      rcases List.mem_cons.mp hz with rfl | hz
      · exact h
      · exact htrans x y z h (hy z hz)
    · rw [insertS, if_neg h]
      refine List.pairwise_cons.mpr ⟨?_, ih hys⟩
      intro z hz
      rcases (mem_insertS le x z ys).mp hz with heq | hz
      · rw [heq]
        rcases htot x y with hxy | hyx
        · exact absurd hxy h
        · exact hyx
      · exact hy z hz

theorem pairwise_stableSort (le : α → α → Bool)
    (htot : ∀ a b, le a b = true ∨ le b a = true)
    (htrans : ∀ a b c, le a b = true → le b c = true → le a c = true)
    (l : List α) :
    (stableSort le l).Pairwise (fun a b => le a b = true) := by
  induction l with
  | nil => simp [stableSort]
  | cons x xs ih => exact pairwise_insertS le htot htrans x _ ih

theorem le_refl_of_total (le : α → α → Bool)
    (htot : ∀ a b, le a b = true ∨ le b a = true) (a : α) : le a a = true := by
  rcases htot a a with h | h <;> exact h

theorem stableSort_head_le (le : α → α → Bool)
    (htot : ∀ a b, le a b = true ∨ le b a = true)
    (htrans : ∀ a b c, le a b = true → le b c = true → le a c = true) :
    ∀ (l : List α) (hd : α) (tl : List α),
      stableSort le l = hd :: tl → ∀ x ∈ l, le hd x = true := by
  intro l
  induction l with
  | nil => intro hd tl h x hx; simp at hx
  | cons a as ih =>
    intro hd tl hsort x hx
    rw [stableSort] at hsort
    rcases hs : stableSort le as with _ | ⟨b, bs⟩
    · have hnil : as = [] := stableSort_eq_nil le hs
      rw [hs] at hsort
      simp only [insertS] at hsort
      injection hsort with h1 h2
      rw [← h1]
      rw [hnil] at hx
      have hxa := List.mem_singleton.mp hx
      rw [hxa]
      exact le_refl_of_total le htot a
    · rw [hs] at hsort
      by_cases hab : le a b = true
      · rw [insertS, if_pos hab] at hsort
        injection hsort with h1 h2
        rw [← h1]
        rcases List.mem_cons.mp hx with heq | hx
        · rw [heq]
          exact le_refl_of_total le htot a
        · exact htrans a b x hab (ih b bs hs x hx)
      · rw [insertS, if_neg hab] at hsort
        injection hsort with h1 h2
        rw [← h1]
        rcases List.mem_cons.mp hx with heq | hx
        · rw [heq]
          rcases htot a b with h | h
          · exact absurd h hab
          · exact h
        · exact ih b bs hs x hx

theorem stableSort_head_tie (le : α → α → Bool) (P : α → α → Prop)
    (hrefl : ∀ a, P a a) :
    ∀ (l : List α) (hd : α) (tl : List α), l.Pairwise P →
      stableSort le l = hd :: tl → ∀ x ∈ l, le x hd = true → P hd x := by
  intro l
  induction l with
  | nil => intro hd tl _ h x hx; simp at hx
  | cons a as ih =>
    intro hd tl hpw hsort x hx hxh
    rcases List.pairwise_cons.mp hpw with ⟨ha, has⟩
    rw [stableSort] at hsort
    rcases hs : stableSort le as with _ | ⟨b, bs⟩
    · have hnil : as = [] := stableSort_eq_nil le hs
      rw [hs] at hsort
      simp only [insertS] at hsort
      injection hsort with h1 h2
      rw [← h1]
      rw [hnil] at hx
      have hxa := List.mem_singleton.mp hx
      rw [hxa]
      exact hrefl a
    · rw [hs] at hsort
      by_cases hab : le a b = true
      · rw [insertS, if_pos hab] at hsort
        injection hsort with h1 h2
        rw [← h1]
        rcases List.mem_cons.mp hx with heq | hx
        · rw [heq]
          exact hrefl a
        · exact ha x hx
      · rw [insertS, if_neg hab] at hsort
        injection hsort with h1 h2
        rw [← h1]
        rcases List.mem_cons.mp hx with heq | hx
        · rw [heq, ← h1] at hxh
          exact absurd hxh hab
        · rw [← h1] at hxh
          exact ih b bs has hs x hx hxh

theorem stableSort_pair_sublist (le : α → α → Bool) (a b : α)
    (hab : le a b = true) :
    ∀ l : List α, List.Sublist [a, b] l →
      List.Sublist [a, b] (stableSort le l) := by
  intro l
  induction l with
  | nil => intro h; exact absurd h (by simp)
  | cons c cs ih =>
    intro h
    rw [stableSort]
    obtain ⟨u, v, hs, hins, hu⟩ := insertS_decomp le c (stableSort le cs)
    cases h with
    | cons _ h₂ =>
      rw [hins]
      have hsub := ih h₂
      rw [hs] at hsub
      exact hsub.trans
        (List.Sublist.append_left (List.Sublist.cons c (List.Sublist.refl v)) u)
    | cons₂ _ h₂ =>
      rw [hins]
      have hb : b ∈ stableSort le cs :=
        (mem_stableSort le b cs).mpr (List.singleton_sublist.mp h₂)
      rw [hs] at hb
      have hbv : b ∈ v := by
        rcases List.mem_append.mp hb with hbu | hbv
        · exact absurd (hu b hbu) (by simp [hab])
        · exact hbv
      have hav : List.Sublist [a, b] (a :: v) :=
        List.Sublist.cons₂ a (List.singleton_sublist.mpr hbv)
      exact hav.trans (List.sublist_append_right u (a :: v))

/-! ## JDK requirements resolver (`requirements.ts`, src/unnamed/part_000) -/

/-- Remediation commands attached to a rejection (`Commands.OPEN_BROWSER`,
`Commands.OPEN_JSON_SETTINGS`). -/
inductive Command where
  | OPEN_BROWSER
  | OPEN_JSON_SETTINGS
deriving DecidableEq

/-- Payload passed to `reject` (`message`, optional `label`, optional
`command`; the `commandParam` URL is folded into `command`). -/
structure Failure where
  message : String
  label : Option String := none
  command : Option Command := none
deriving DecidableEq

/-- Result shape resolved by `resolveRequirements`. -/
structure RequirementsData where
  tooling_jre : String
  tooling_jre_version : Nat
  java_home : String
  java_version : Nat
deriving DecidableEq

/-- A runtime discovered by `jdk-utils`' `findRuntimes` (called with
`withVersion: true`, so the version record is present; `major` is
`version.major` and `sources` is what `getSources` reports). -/
structure IJavaRuntime where
  homedir : String
  major : Nat
  sources : List String
deriving DecidableEq

/-- One entry of the `java.configuration.runtimes` setting.  `valid` models
`runtime && typeof runtime === 'object'` (a non-null object) and `rpath`
models `runtime.path` (empty string for a missing/falsy path). -/
structure ConfiguredRuntime where
  valid : Bool
  rpath : String
  isDefault : Bool
deriving DecidableEq

/-- Host environment consumed by the resolver.  Strings use `""` for the
JavaScript falsy values `undefined`/`''`. -/
structure ResolveEnv where
  /-- `'on' === getJavaConfiguration().get('jdt.ls.javac.enabled')`. -/
  javacEnabled : Bool
  /-- Result of `checkAndDownloadJRE(context)` (the extension's own JRE
  lookup/download, a host collaborator outside this repository's src). -/
  downloadedJre : String
  /-- `javaPreferences.preference` from `checkJavaPreferences`. -/
  preferenceName : String
  /-- `javaPreferences.javaHome` from `checkJavaPreferences`. -/
  prefJavaHome : String
  /-- `expandHomeDir`. -/
  expandHome : String → String
  /-- `fse.pathExists`. -/
  pathExists : String → Bool
  /-- `getRuntime(home, { withVersion: true })?.version?.major || 0` for a
  non-empty home directory. -/
  versionOf : String → Nat
  /-- `findRuntimes({ checkJavac: true, withVersion: true, withTags: true })`. -/
  javaRuntimes : List IJavaRuntime
  /-- `workspace.getConfiguration().get("java.configuration.runtimes")`. -/
  configRuntimes : List ConfiguredRuntime
  /-- `getRuntime(path)?.homedir` for a configured runtime path. -/
  runtimeHomeOf : String → Option String

/-- `JAVAC_FILENAME` from `jdk-utils` (non-Windows spelling). -/
def JAVAC_FILENAME : String := "javac"

/-- `getJdkUrl()` on a non-darwin platform. -/
def getJdkUrl : String :=
  "https://developers.redhat.com/products/openjdk/download/?sc_cid=701f2000000RWTnAAO"

/-- Rejection built by `openJDKDownload`: the download-remediation failure. -/
def openJDKDownload (cause : String) : Failure :=
  { message := cause
    label := some "Get the Java Development Kit"
    command := some Command.OPEN_BROWSER }

/-- Rejection built by `invalidJavaHome`: an open-settings remediation when
the cause mentions `java.home` (`cause.indexOf("java.home") > -1`), a bare
message otherwise. -/
def invalidJavaHome (cause : String) : Failure :=
  if containsSubstr cause "java.home" then
    { message := cause, label := some "Open settings", command := some Command.OPEN_JSON_SETTINGS }
  else
    { message := cause }

/-- `getMajorVersion`: `0` for a falsy home, otherwise the probed major. -/
def getMajorVersion (env : ResolveEnv) (javaHome : String) : Nat :=
  if javaHome = "" then 0 else env.versionOf javaHome

/-- `requiredJdkVersion` computed at the top of the promise executor. -/
def requiredJdkVersion (env : ResolveEnv) : Nat :=
  if env.javacEnabled then 23 else 17

/-- Source ranking used by `sortJdksBySource`: a runtime's `rank` is the index
of the first entry of `["JDK_HOME", "JAVA_HOME", "PATH"]` contained in its
sources (the nested loops assign each still-unranked jdk the current source
index), and jdks left unranked get `sources.length`. -/
def sourcesOrder : List String := ["JDK_HOME", "JAVA_HOME", "PATH"]

/-- Rank of one runtime as computed by `sortJdksBySource`. -/
def rankOf (jdk : IJavaRuntime) : Nat :=
  match sourcesOrder.findIdx? (fun s => jdk.sources.contains s) with
  | some i => i
  | none => sourcesOrder.length

/-- `sortJdksBySource`: stable ascending sort by `rank`
(`rankedJdks.sort((a, b) => a.rank - b.rank)`). -/
def sortJdksBySource (jdks : List IJavaRuntime) : List IJavaRuntime :=
  stableSort (fun a b => decide (rankOf a ≤ rankOf b)) jdks

/-- `sortJdksByVersion`: stable descending sort by major version
(`jdks.sort((a, b) => (b.version?.major ?? 0) - (a.version?.major ?? 0))`). -/
def sortJdksByVersion (jdks : List IJavaRuntime) : List IJavaRuntime :=
  stableSort (fun a b => decide (b.major ≤ a.major)) jdks

/-- Leading maximal digit run of a string after skipping non-digits: the first
match of the regex `/\d+/` fed to `parseInt`. -/
def firstIntToken (s : String) : Option Nat :=
  match (s.toList.dropWhile (fun c => !c.isDigit)).takeWhile Char.isDigit with
  | [] => none
  | ds => some (digitsToNat ds)

/-- `parseMajorVersion` from requirements.ts. -/
def parseMajorVersion (version : String) : Nat :=
  if version = "" then 0
  else
    let version := if strStartsWith version "1." then version.drop 2 else version
    match firstIntToken version with
    | some n => n
    | none => 0

/-- `findDefaultRuntimeFromSettings` loop body: walks the configured runtime
list keeping the most recently probed home directory as `candidate`, skipping
invalid entries entirely (their `default` flag is never tested), and stopping
at the first valid entry marked `default`. -/
def findDefaultLoop (env : ResolveEnv) :
    List ConfiguredRuntime → Option String → Option String
  | [], cand => cand
  | r :: rs, cand =>
    if r.valid = false ∨ r.rpath = "" then findDefaultLoop env rs cand
    else
      let cand' := match env.runtimeHomeOf r.rpath with
        | some h => some h
        | none => cand
      if r.isDefault then cand' else findDefaultLoop env rs cand'

/-- `findDefaultRuntimeFromSettings`: `undefined` (here `none`) when the
setting is absent or empty, otherwise the loop result. -/
def findDefaultRuntimeFromSettings (env : ResolveEnv) : Option String :=
  if env.configRuntimes = [] then none
  else findDefaultLoop env env.configRuntimes none

/-- Message of the line-107 rejection (tooling JDK missing or too old). -/
def toolingJdkRequiredMsg (required : Nat) : String :=
  "Java " ++ toString required ++ " or more recent is required to run the Java extension. Please download and install a recent JDK. You can still compile your projects with older JDKs by configuring [\x27java.configuration.runtimes\x27](https://github.com/redhat-developer/vscode-java/wiki/JDK-Requirements#java.configuration.runtimes)"

/-- Message of the line-102 rejection (no default project JDK found). -/
def projectJdkMsg : String :=
  "Please download and install a JDK to compile your project. You can configure your projects with different JDKs by the setting [\x27java.configuration.runtimes\x27](https://github.com/redhat-developer/vscode-java/wiki/JDK-Requirements#java.configuration.runtimes)"

/-- Final stretch of the executor (lines 106-117): the guard
`if (!toolingJre || toolingJreVersion < requiredJdkVersion)` rejects with the
download remediation, otherwise the promise resolves. -/
def finalize (required : Nat) (toolingJre : String) (toolingJreVersion : Nat)
    (javaHome : String) (javaVersion : Nat) : Except Failure RequirementsData :=
  if toolingJre = "" ∨ toolingJreVersion < required then
    .error (openJDKDownload (toolingJdkRequiredMsg required))
  else
    .ok { tooling_jre := toolingJre, tooling_jre_version := toolingJreVersion,
          java_home := javaHome, java_version := javaVersion }

/-- Middle stretch of the executor (lines 70-104): scan `findRuntimes`
results for a tooling JRE when none is set yet, otherwise pick a default
project JDK, then fall through to `finalize`. -/
def afterHomeCheck (env : ResolveEnv) (required : Nat) (toolingJre : String)
    (toolingJreVersion : Nat) (javaHome : String) (javaVersion : Nat) :
    Except Failure RequirementsData :=
  if toolingJre = "" then
    -- sortJdksByVersion(javaRuntimes); validJdks = filter(major >= required);
    -- if any: sortJdksBySource(validJdks); take validJdks[0]
    match sortJdksBySource
        ((sortJdksByVersion env.javaRuntimes).filter
          (fun r => decide (required ≤ r.major))) with
    | best :: _ =>
      finalize required best.homedir best.major best.homedir best.major
    | [] => finalize required toolingJre toolingJreVersion javaHome javaVersion
  else
    if javaHome ≠ "" then
      -- keep the configured home as the initial default project JDK
      finalize required toolingJre toolingJreVersion javaHome javaVersion
    else
      match sortJdksBySource env.javaRuntimes with
      | best :: _ =>
        finalize required toolingJre toolingJreVersion best.homedir best.major
      | [] =>
        match findDefaultRuntimeFromSettings env with
        | some h =>
          if h = "" then
            .error (openJDKDownload projectJdkMsg)
          else
            finalize required toolingJre toolingJreVersion h (getMajorVersion env h)
        | none =>
          .error (openJDKDownload projectJdkMsg)

/-- `resolveRequirements`.  The tooling JRE starts out as the downloaded-JRE
probe result; a configured Java home is validated (with `invalidJavaHome`
rejections) and promoted to the tooling JRE when the preference is
`java.jdt.ls.java.home` or no tooling JRE is present and it meets the minimum
version; the rest is `afterHomeCheck`.  An early `reject` settles the promise
even though the JavaScript keeps executing, so it is an early return here. -/
def resolveRequirements (env : ResolveEnv) : Except Failure RequirementsData :=
  let toolingJre := env.downloadedJre
  let toolingJreVersion := getMajorVersion env toolingJre
  let required := requiredJdkVersion env
  if env.prefJavaHome = "" then
    afterHomeCheck env required toolingJre toolingJreVersion "" 0
  else
    let source := env.preferenceName ++ " variable defined in coc-settings.json"
    let javaHome := env.expandHome env.prefJavaHome
    if env.pathExists javaHome = false then
      .error (invalidJavaHome
        ("The " ++ source ++ " points to a missing or inaccessible folder (" ++ javaHome ++ ")"))
    else if env.pathExists (javaHome ++ "/bin/" ++ JAVAC_FILENAME) = false then
      .error (invalidJavaHome
        (if env.pathExists (javaHome ++ "/" ++ JAVAC_FILENAME) then
          "\x27bin\x27 should be removed from the " ++ source ++ " (" ++ javaHome ++ ")"
        else
          "The " ++ source ++ " (" ++ javaHome ++ ") does not point to a JDK."))
    else
      let javaVersion := getMajorVersion env javaHome
      if env.preferenceName = "java.jdt.ls.java.home" ∨ toolingJre = "" then
        if required ≤ javaVersion then
          afterHomeCheck env required javaHome javaVersion javaHome javaVersion
        else
          afterHomeCheck env required toolingJre toolingJreVersion javaHome javaVersion
      else
        afterHomeCheck env required toolingJre toolingJreVersion javaHome javaVersion

/-! ## Lombok support (`src/lombokSupport.ts`) -/

/-- JavaScript exceptions that the Lombok helpers can actually throw: the
`TypeError` raised by reading `.length` of the `null` returned by
`RegExp.exec` on a non-matching string, and the `TypeError` thrown by
`semver.gte` on an argument that is not a valid semantic version. -/
inductive JsError where
  | typeError (msg : String)
  | invalidVersion (msg : String)
deriving DecidableEq

/-- `unkownVersion` constant (sic) from lombokSupport.ts. -/
def unkownVersion : String := "999.999.999"

/-- `compatibleVersion` constant from lombokSupport.ts. -/
def compatibleVersion : String := "1.18.0"

/-- First (leftmost, greedy) match of `lombokJarRegex = /lombok-?\d?.*\.jar$/`
against `s`, as returned in `exec(s)[0]`.  Because `-?` and `\d?` may match
empty and `.*` is greedy up to the `$`-anchored `.jar`, a match exists exactly
when `s` ends with `".jar"` and contains an occurrence of `"lombok"` whose end
lies at least 4 characters before the end of the string; the reported match
then runs from the first occurrence of `"lombok"` to the end.  (`.` not
matching newlines is irrelevant for the newline-free paths considered.) -/
def lombokJarRegexExec (s : String) : Option String :=
  match strIndexOf s "lombok" with
  | none => none
  | some i =>
    if strEndsWith s ".jar" ∧ i + 10 ≤ s.length then some (s.drop i) else none

/-- `lombokPath2Version`.  A falsy path returns `''`; on a regex match,
`matches[0].split('.jar')[0]`; on a failed match, `exec` returns `null` and
`matches.length` throws a `TypeError`, so the warning-and-`"lombok"` fallback
branch of the source is unreachable. -/
def lombokPath2Version (lombokPath : Option String) : Except JsError String :=
  match lombokPath with
  | none => .ok ""
  | some p =>
    if p = "" then .ok ""
    else
      match lombokJarRegexExec p with
      | none => .error (.typeError "Cannot read properties of null (reading length)")
      | some m => .ok ((strSplitOn m ".jar").headD "")

/-- `lombokPath2VersionNumber`: token after the first `-` of the jar version
tag, else the unknown-version sentinel. -/
def lombokPath2VersionNumber (lombokPath : Option String) : Except JsError String :=
  match lombokPath2Version lombokPath with
  | .error e => .error e
  | .ok ver =>
    match strSplitOn ver "-" with
    | _ :: second :: _ => .ok second
    | _ => .ok unkownVersion

/-- Parse of a plain `major.minor.patch` semantic version, the only shape the
`semver` library accepts among the strings this code builds (pre-release and
build suffixes never arise from `lombokPath2VersionNumber` tokens compared
here).  `none` models the library throwing `Invalid Version`. -/
def parseSemver (s : String) : Option (Nat × Nat × Nat) :=
  match strSplitOn s "." with
  | [a, b, c] =>
    if a ≠ "" ∧ b ≠ "" ∧ c ≠ "" ∧ (a.toList.all Char.isDigit)
        ∧ (b.toList.all Char.isDigit) ∧ (c.toList.all Char.isDigit) then
      some (digitsToNat a.toList, digitsToNat b.toList, digitsToNat c.toList)
    else none
  | _ => none

/-- Lexicographic comparison of parsed versions. -/
def semverTripleLe (a b : Nat × Nat × Nat) : Bool :=
  decide (a.1 < b.1) ||
    (decide (a.1 = b.1) &&
      (decide (a.2.1 < b.2.1) ||
        (decide (a.2.1 = b.2.1) && decide (a.2.2 ≤ b.2.2))))

/-- `semver.gte(v, w)`: throws `Invalid Version` unless both sides parse. -/
def semverGte (v w : String) : Except JsError Bool :=
  match parseSemver v, parseSemver w with
  | some a, some b => .ok (semverTripleLe b a)
  | _, _ => .error (.invalidVersion ("Invalid Version: " ++ v))

/-- `isCompatibleLombokVersion`. -/
def isCompatibleLombokVersion (currentVersion : String) : Except JsError Bool :=
  semverGte currentVersion compatibleVersion

/-- Characters accepted by the `[\\|/]` class of the user-agent regex
(backslash, pipe, or slash). -/
def isSlashLike (c : Char) : Bool :=
  c = '\\' || c = '|' || c = '/'

/-- Unanchored test of the user-agent regex `reg` (slash-delimited in the
source: `-javaagent:` then `.*` then `[\\|/]lombok` then `.*\.jar`): the
argument contains `-javaagent:`, later a slash-like character immediately
followed by `lombok`, and later still `.jar`. -/
def matchesLombokAgent (s : String) : Bool :=
  let cs := s.toList
  (List.range cs.length).any (fun i =>
    "-javaagent:".toList.isPrefixOf (cs.drop i) &&
    (List.range cs.length).any (fun j =>
      decide (i + 11 ≤ j) &&
      (match cs.drop j with
       | c :: rest =>
         isSlashLike c && "lombok".toList.isPrefixOf rest &&
         (List.range cs.length).any (fun k =>
           decide (j + 7 ≤ k) && ".jar".toList.isPrefixOf (cs.drop k))
       | [] => false)))

/-- JavaScript truthiness of a `string | undefined` value. -/
def jsTruthy : Option String → Bool
  | none => false
  | some s => s ≠ ""

/-- Host environment of `addLombokParam`. -/
structure LombokEnv where
  /-- `context.workspaceState.get(JAVA_LOMBOK_PATH)`. -/
  cache : Option String
  /-- `fse.existsSync`. -/
  fsExists : String → Bool
  /-- Result of the `getExtensionLombokPath()` probe (a `glob` over the
  extension's server directory followed by an existence check; `none` models
  its two warning-and-`undefined` returns). -/
  extensionLombok : Option String

/-- Observable outcome of `addLombokParam`: the final argument list, the
`isExtensionLombok` flag, whether `cleanupLombokCache` ran (and the resulting
cache entry), the warnings shown by `addLombokParam` itself, and the
`activeLombokPath` recorded by `updateActiveLombokPath`. -/
structure LombokResult where
  params : List String
  isExtensionLombok : Bool
  cacheCleared : Bool
  cacheState : Option String
  warnings : List String
  activeLombokPath : Option String
deriving DecidableEq

/-- `cleanupLombokCache`: `workspaceState.update(JAVA_LOMBOK_PATH, undefined)`. -/
def cleanupLombokCache (_cache : Option String) : Option String := none

/-- Tail of `addLombokParam` from `if (isExtensionLombok)` on: swap in the
extension jar when the flag is set, bail out with a warning when no jar
path is left, otherwise push the `-javaagent:` argument and record the
active path. -/
def finishAddLombok (env : LombokEnv) (params1 : List String)
    (jarPath : Option String) (isExt : Bool) (cleared : Bool)
    (cacheState : Option String) (warns : List String) : LombokResult :=
  let jarPath := if isExt then env.extensionLombok else jarPath
  if jsTruthy jarPath = false then
    { params := params1, isExtensionLombok := isExt, cacheCleared := cleared,
      cacheState := cacheState,
      warnings := warns ++ ["Could not resolve valid lombok jar from vmargs or builtin."],
      activeLombokPath := none }
  else
    let jar := jarPath.getD ""
    { params := params1 ++ ["-javaagent:" ++ jar], isExtensionLombok := isExt,
      cacheCleared := cleared, cacheState := cacheState, warnings := warns,
      activeLombokPath := some jar }

/-- `addLombokParam`.  Matching `-javaagent` arguments are collected
(`deleteIndex`), the last match is kept as `lastMatchedParam`, and all are
spliced out (which is exactly a filter).  The cached path, else the stripped
last match, is then checked for existence and compatibility; an incompatible
jar clears the cache and warns with both version strings, and the winning
path is appended as a fresh `-javaagent:` argument. -/
def addLombokParam (env : LombokEnv) (params : List String) :
    Except JsError LombokResult :=
  let lastMatchedParam : Option String := (params.filter matchesLombokAgent).getLast?
  let params1 := params.filter (fun p => matchesLombokAgent p = false)
  -- isExtensionLombok = true
  let jarPath0 : Option String := env.cache
  let jarPath1 : Option String :=
    if jsTruthy jarPath0 = false ∧ jsTruthy lastMatchedParam = true then
      some (replaceFirst (lastMatchedParam.getD "") "-javaagent:" "")
    else jarPath0
  if jsTruthy jarPath1 && env.fsExists (jarPath1.getD "") then
    match lombokPath2VersionNumber jarPath1 with
    | .error e => .error e
    | .ok v =>
      match isCompatibleLombokVersion v with
      | .error e => .error e
      | .ok true =>
        .ok (finishAddLombok env params1 jarPath1 false false env.cache [])
      | .ok false =>
        -- cleanupLombokCache(context); warning interpolates the rejected and
        -- bundled version numbers (the second lookup may itself throw)
        match lombokPath2VersionNumber env.extensionLombok with
        | .error e => .error e
        | .ok bundledV =>
          .ok (finishAddLombok env params1 jarPath1 true true
            (cleanupLombokCache env.cache)
            ["The configured lombok " ++ v ++ " is not supported, falling back " ++ bundledV])
  else
    .ok (finishAddLombok env params1 jarPath1 true false env.cache [])

/-! ## Generic facts about the resolver pipeline -/

theorem finalize_ok (req : Nat) (tj : String) (tjv : Nat) (jh : String) (jv : Nat)
    (r : RequirementsData) (h : finalize req tj tjv jh jv = .ok r) :
    tj ≠ "" ∧ req ≤ tjv ∧ r = ⟨tj, tjv, jh, jv⟩ := by
  unfold finalize at h
  split at h
  · simp at h
  · next hcond =>
    push_neg at hcond
    injection h with h2
    exact ⟨hcond.1, hcond.2, h2.symm⟩

theorem finalize_error (req : Nat) (tj : String) (tjv : Nat) (jh : String) (jv : Nat)
    (f : Failure) (h : finalize req tj tjv jh jv = .error f) :
    f.label = some "Get the Java Development Kit" ∧ f.command = some Command.OPEN_BROWSER := by
  unfold finalize at h
  split at h
  · injection h with h2
    rw [← h2]
    exact ⟨rfl, rfl⟩
  · simp at h

theorem afterHomeCheck_ok (env : ResolveEnv) (req : Nat) (tj : String) (tjv : Nat)
    (jh : String) (jv : Nat) (r : RequirementsData)
    (h : afterHomeCheck env req tj tjv jh jv = .ok r) :
    r.tooling_jre ≠ "" ∧ req ≤ r.tooling_jre_version := by
  unfold afterHomeCheck at h
  split at h
  · split at h
    · obtain ⟨h1, h2, h3⟩ := finalize_ok _ _ _ _ _ _ h
      rw [h3]
      exact ⟨h1, h2⟩
    · obtain ⟨h1, h2, h3⟩ := finalize_ok _ _ _ _ _ _ h
      rw [h3]
      exact ⟨h1, h2⟩
  · split at h
    · obtain ⟨h1, h2, h3⟩ := finalize_ok _ _ _ _ _ _ h
      rw [h3]
      exact ⟨h1, h2⟩
    · split at h
      · obtain ⟨h1, h2, h3⟩ := finalize_ok _ _ _ _ _ _ h
        rw [h3]
        exact ⟨h1, h2⟩
      · split at h
        · split at h
          · simp at h
          · obtain ⟨h1, h2, h3⟩ := finalize_ok _ _ _ _ _ _ h
            rw [h3]
            exact ⟨h1, h2⟩
        · simp at h

theorem afterHomeCheck_error (env : ResolveEnv) (req : Nat) (tj : String) (tjv : Nat)
    (jh : String) (jv : Nat) (f : Failure)
    (h : afterHomeCheck env req tj tjv jh jv = .error f) :
    f.label = some "Get the Java Development Kit" ∧ f.command = some Command.OPEN_BROWSER := by
  unfold afterHomeCheck at h
  split at h
  · split at h
    · exact finalize_error _ _ _ _ _ _ h
    · exact finalize_error _ _ _ _ _ _ h
  · split at h
    · exact finalize_error _ _ _ _ _ _ h
    · split at h
      · exact finalize_error _ _ _ _ _ _ h
      · split at h
        · split at h
          · injection h with h2
            rw [← h2]
            exact ⟨rfl, rfl⟩
          · exact finalize_error _ _ _ _ _ _ h
        · injection h with h2
          rw [← h2]
          exact ⟨rfl, rfl⟩

theorem resolveRequirements_ok (env : ResolveEnv) (r : RequirementsData)
    (h : resolveRequirements env = .ok r) :
    r.tooling_jre ≠ "" ∧ requiredJdkVersion env ≤ r.tooling_jre_version := by
  simp only [resolveRequirements] at h
  split at h
  · exact afterHomeCheck_ok _ _ _ _ _ _ _ h
  · split at h
    · simp at h
    · split at h
      · simp at h
      · split at h
        · split at h
          · exact afterHomeCheck_ok _ _ _ _ _ _ _ h
          · exact afterHomeCheck_ok _ _ _ _ _ _ _ h
        · exact afterHomeCheck_ok _ _ _ _ _ _ _ h

/-! ## Claim C1 -/

/-- C1 (amended): `resolveRequirements` never resolves with an empty tooling
JRE or one whose major version is below the required version (17 or 23); and
whenever no Java home is configured, every rejection carries the
download-remediation action.  (As stated the claim fails: an invalid
configured Java home is rejected through `invalidJavaHome` with an
open-settings remediation instead of the download action.) -/
theorem C1_resolver_tooling_floor :
    (∀ (env : ResolveEnv) (r : RequirementsData), resolveRequirements env = .ok r →
      r.tooling_jre ≠ "" ∧ requiredJdkVersion env ≤ r.tooling_jre_version) ∧
    (∀ (env : ResolveEnv) (f : Failure), env.prefJavaHome = "" →
      resolveRequirements env = .error f →
      f.label = some "Get the Java Development Kit" ∧
      f.command = some Command.OPEN_BROWSER) := by
  constructor
  · exact resolveRequirements_ok
  · intro env f hpref h
    simp only [resolveRequirements] at h
    rw [hpref] at h
    simp only [if_pos rfl] at h
    exact afterHomeCheck_error _ _ _ _ _ _ _ h

/-- Environment refuting C1 as stated: `java.home` configured but pointing at
a missing folder, so the resolver rejects through `invalidJavaHome`. -/
def envC1cex : ResolveEnv :=
  { javacEnabled := false, downloadedJre := "", preferenceName := "java.home",
    prefJavaHome := "/missing", expandHome := fun s => s,
    pathExists := fun _ => false, versionOf := fun _ => 0, javaRuntimes := [],
    configRuntimes := [], runtimeHomeOf := fun _ => none }

/-- C1 counterexample: at `envC1cex` the promise rejects with the
`Open settings` remediation (`OPEN_JSON_SETTINGS`), not a
download-remediation action, refuting the claim's "either resolves with a
new-enough tooling JRE or rejects with a failure carrying a
download-remediation action". -/
theorem C1_settings_remediation_cex :
    resolveRequirements envC1cex =
      .error { message := "The java.home variable defined in coc-settings.json points to a missing or inaccessible folder (/missing)",
               label := some "Open settings",
               command := some Command.OPEN_JSON_SETTINGS } ∧
    some Command.OPEN_JSON_SETTINGS ≠ some Command.OPEN_BROWSER := by
  exact ⟨by decide, by decide⟩

/-- Environment where resolution succeeds from a scanned JDK 17. -/
def envC1wit : ResolveEnv :=
  { javacEnabled := false, downloadedJre := "", preferenceName := "p",
    prefJavaHome := "", expandHome := fun s => s, pathExists := fun _ => false,
    versionOf := fun _ => 0,
    javaRuntimes := [⟨"jdk17", 17, ["JDK_HOME"]⟩],
    configRuntimes := [], runtimeHomeOf := fun _ => none }

/-- Environment with no JDK at all, rejecting with the download remediation. -/
def envC1wit2 : ResolveEnv :=
  { javacEnabled := false, downloadedJre := "", preferenceName := "p",
    prefJavaHome := "", expandHome := fun s => s, pathExists := fun _ => false,
    versionOf := fun _ => 0, javaRuntimes := [],
    configRuntimes := [], runtimeHomeOf := fun _ => none }

set_option maxRecDepth 10000 in
/-- Witness instantiating both halves of `C1_resolver_tooling_floor` on
concrete environments. -/
theorem C1_resolver_tooling_floor_witness :
    (({ tooling_jre := "jdk17", tooling_jre_version := 17, java_home := "jdk17",
        java_version := 17 } : RequirementsData).tooling_jre ≠ "" ∧
      requiredJdkVersion envC1wit ≤
        ({ tooling_jre := "jdk17", tooling_jre_version := 17, java_home := "jdk17",
           java_version := 17 } : RequirementsData).tooling_jre_version) ∧
    ((openJDKDownload (toolingJdkRequiredMsg 17)).label =
        some "Get the Java Development Kit" ∧
      (openJDKDownload (toolingJdkRequiredMsg 17)).command =
        some Command.OPEN_BROWSER) :=
  ⟨C1_resolver_tooling_floor.1 envC1wit
      { tooling_jre := "jdk17", tooling_jre_version := 17, java_home := "jdk17",
        java_version := 17 } (by decide),
   C1_resolver_tooling_floor.2 envC1wit2 (openJDKDownload (toolingJdkRequiredMsg 17))
      rfl (by decide)⟩

/-! ## Claim C4 -/

/-- Specification-side pick for `findDefaultRuntimeFromSettings` over a list
whose entries are all valid and resolvable, with homes given by `g`: the
first entry marked default, else the last entry. -/
def defaultPick (g : ConfiguredRuntime → String) : List ConfiguredRuntime → Option String
  | [] => none
  | r :: rs =>
    if r.isDefault then some (g r)
    else
      match defaultPick g rs with
      | some h => some h
      | none => some (g r)

theorem findDefaultLoop_spec (env : ResolveEnv) (g : ConfiguredRuntime → String) :
    ∀ (rs : List ConfiguredRuntime) (cand : Option String),
      (∀ cr ∈ rs, cr.valid = true ∧ cr.rpath ≠ "" ∧
        env.runtimeHomeOf cr.rpath = some (g cr)) →
      findDefaultLoop env rs cand =
        match defaultPick g rs with
        | some h => some h
        | none => cand := by
  intro rs
  induction rs with
  | nil => intro cand _; simp [findDefaultLoop, defaultPick]
  | cons r rs ih =>
    intro cand hall
    obtain ⟨hv, hp, hh⟩ := hall r (List.mem_cons_self r rs)
    rw [findDefaultLoop, if_neg (by simp [hv, hp]), hh]
    by_cases hdef : r.isDefault = true
    · rw [if_pos hdef, defaultPick, if_pos hdef]
    · rw [if_neg hdef, defaultPick, if_neg hdef,
        ih (some (g r)) (fun cr hcr => hall cr (List.mem_cons_of_mem r hcr))]
      cases defaultPick g rs <;> simp

theorem defaultPick_of_find (g : ConfiguredRuntime → String) :
    ∀ (rs : List ConfiguredRuntime) (d : ConfiguredRuntime),
      rs.find? (fun cr => cr.isDefault) = some d → defaultPick g rs = some (g d) := by
  intro rs
  induction rs with
  | nil => intro d h; simp at h
  | cons r rs ih =>
    intro d h
    by_cases hdef : r.isDefault = true
    · rw [List.find?_cons_of_pos _ hdef] at h
      injection h with h2
      rw [defaultPick, if_pos hdef, h2]
    · rw [List.find?_cons_of_neg _ (by simp [hdef])] at h
      rw [defaultPick, if_neg hdef, ih d h]

theorem defaultPick_of_no_default (g : ConfiguredRuntime → String) :
    ∀ (rs : List ConfiguredRuntime) (lst : ConfiguredRuntime),
      rs.find? (fun cr => cr.isDefault) = none → rs.getLast? = some lst →
      defaultPick g rs = some (g lst) := by
  intro rs
  induction rs with
  | nil => intro lst _ hl; simp at hl
  | cons r rs ih =>
    intro lst hf hl
    have hdef : ¬ r.isDefault = true := by
      intro hdef
      rw [List.find?_cons_of_pos _ hdef] at hf
      simp at hf
    have hf2 : rs.find? (fun cr => cr.isDefault) = none := by
      rw [List.find?_cons_of_neg _ (by simp [hdef])] at hf
      exact hf
    cases rs with
    | nil =>
      simp at hl
      rw [defaultPick, if_neg hdef, defaultPick, hl]
    | cons x xs =>
      rw [List.getLast?_cons_cons] at hl
      rw [defaultPick, if_neg hdef, ih lst hf2 hl]

/-- C4 (amended): when every entry of `java.configuration.runtimes` is a
valid object with a resolvable path (probing to `g`-given homes),
`findDefaultRuntimeFromSettings` returns the home of the first entry marked
default; and when no entry is marked default it returns the home of the LAST
entry of the list (the loop keeps overwriting `candidate`), not the first as
claimed. -/
theorem C4_default_runtime_pick (env : ResolveEnv) (g : ConfiguredRuntime → String)
    (hne : env.configRuntimes ≠ [])
    (hall : ∀ cr ∈ env.configRuntimes, cr.valid = true ∧ cr.rpath ≠ "" ∧
      env.runtimeHomeOf cr.rpath = some (g cr)) :
    (∀ d, env.configRuntimes.find? (fun cr => cr.isDefault) = some d →
      findDefaultRuntimeFromSettings env = some (g d)) ∧
    (env.configRuntimes.find? (fun cr => cr.isDefault) = none →
      ∀ lst, env.configRuntimes.getLast? = some lst →
        findDefaultRuntimeFromSettings env = some (g lst)) := by
  constructor
  · intro d hd
    rw [findDefaultRuntimeFromSettings, if_neg hne,
      findDefaultLoop_spec env g env.configRuntimes none hall,
      defaultPick_of_find g env.configRuntimes d hd]
  · intro hf lst hl
    rw [findDefaultRuntimeFromSettings, if_neg hne,
      findDefaultLoop_spec env g env.configRuntimes none hall,
      defaultPick_of_no_default g env.configRuntimes lst hf hl]

/-- Two valid, resolvable runtime entries, neither marked default. -/
def envC4cex : ResolveEnv :=
  { javacEnabled := false, downloadedJre := "", preferenceName := "p",
    prefJavaHome := "", expandHome := fun s => s, pathExists := fun _ => false,
    versionOf := fun _ => 0, javaRuntimes := [],
    configRuntimes := [⟨true, "a", false⟩, ⟨true, "b", false⟩],
    runtimeHomeOf := fun p => some p }

/-- C4 counterexample: with two valid entries `a`, `b` and no default flag,
the claim says the home of the FIRST entry (`a`) is returned, but
`findDefaultRuntimeFromSettings` returns the home of the last entry (`b`). -/
theorem C4_last_entry_cex :
    findDefaultRuntimeFromSettings envC4cex = some "b" ∧
    envC4cex.runtimeHomeOf "a" = some "a" ∧ ("b" : String) ≠ "a" := by
  exact ⟨by decide, rfl, by decide⟩

/-- Same shape as `envC4cex`, for the amended-claim witness. -/
def envC4wit : ResolveEnv :=
  { javacEnabled := false, downloadedJre := "", preferenceName := "p",
    prefJavaHome := "", expandHome := fun s => s, pathExists := fun _ => false,
    versionOf := fun _ => 0, javaRuntimes := [],
    configRuntimes := [⟨true, "a", false⟩, ⟨true, "b", false⟩],
    runtimeHomeOf := fun p => some p }

/-- Witness instantiating `C4_default_runtime_pick` on a concrete
no-default list: the last entry's home is returned. -/
theorem C4_default_runtime_pick_witness :
    findDefaultRuntimeFromSettings envC4wit =
      some ((fun cr => cr.rpath) (⟨true, "b", false⟩ : ConfiguredRuntime)) :=
  (C4_default_runtime_pick envC4wit (fun cr => cr.rpath) (by decide)
      (by
        intro cr hcr
        fin_cases hcr <;> exact ⟨rfl, by decide, rfl⟩)).2
    (by decide) ⟨true, "b", false⟩ (by decide)

/-! ## Claims C2 and C5 -/

theorem rankLe_total (a b : IJavaRuntime) :
    decide (rankOf a ≤ rankOf b) = true ∨ decide (rankOf b ≤ rankOf a) = true := by
  rcases Nat.le_total (rankOf a) (rankOf b) with h | h
  · exact Or.inl (decide_eq_true h)
  · exact Or.inr (decide_eq_true h)

theorem rankLe_trans (a b c : IJavaRuntime)
    (h1 : decide (rankOf a ≤ rankOf b) = true)
    (h2 : decide (rankOf b ≤ rankOf c) = true) :
    decide (rankOf a ≤ rankOf c) = true :=
  decide_eq_true (Nat.le_trans (of_decide_eq_true h1) (of_decide_eq_true h2))

theorem verGe_total (a b : IJavaRuntime) :
    decide (b.major ≤ a.major) = true ∨ decide (a.major ≤ b.major) = true := by
  rcases Nat.le_total b.major a.major with h | h
  · exact Or.inl (decide_eq_true h)
  · exact Or.inr (decide_eq_true h)

theorem verGe_trans (a b c : IJavaRuntime)
    (h1 : decide (b.major ≤ a.major) = true)
    (h2 : decide (c.major ≤ b.major) = true) :
    decide (c.major ≤ a.major) = true :=
  decide_eq_true (Nat.le_trans (of_decide_eq_true h2) (of_decide_eq_true h1))

theorem resolveRequirements_noPref (env : ResolveEnv)
    (hdl : env.downloadedJre = "") (hpref : env.prefJavaHome = "") :
    resolveRequirements env =
      afterHomeCheck env (requiredJdkVersion env) "" 0 "" 0 := by
  simp only [resolveRequirements]
  rw [hdl, hpref]
  simp [getMajorVersion]

theorem afterHomeCheck_scan (env : ResolveEnv) (req : Nat) :
    afterHomeCheck env req "" 0 "" 0 =
      match sortJdksBySource ((sortJdksByVersion env.javaRuntimes).filter
          (fun r => decide (req ≤ r.major))) with
      | best :: _ => finalize req best.homedir best.major best.homedir best.major
      | [] => finalize req "" 0 "" 0 := by
  simp [afterHomeCheck]

theorem mem_sortJdksBySource (l : List IJavaRuntime) (x : IJavaRuntime) :
    x ∈ sortJdksBySource l ↔ x ∈ l := by
  simp [sortJdksBySource, mem_stableSort]

theorem mem_validJdks (env : ResolveEnv) (req : Nat) (x : IJavaRuntime) :
    x ∈ (sortJdksByVersion env.javaRuntimes).filter (fun r => decide (req ≤ r.major)) ↔
      x ∈ env.javaRuntimes ∧ req ≤ x.major := by
  simp [List.mem_filter, sortJdksByVersion, mem_stableSort]

/-- C2 (amended): with no downloaded JRE and no configured home, a
successful resolution picks a qualifying scanned runtime whose origin rank
is MINIMAL among all qualifying candidates (`sortJdksBySource` is the last,
hence primary, sort), and whose major version is maximal only among the
qualifying candidates of that same rank (the earlier descending version sort
survives as the stable tie-break).  As stated the claim fails: the chosen
runtime's major version need not be maximal among all qualifying
candidates. -/
theorem C2_scan_selection (env : ResolveEnv) (r : RequirementsData)
    (hdl : env.downloadedJre = "") (hpref : env.prefJavaHome = "")
    (hok : resolveRequirements env = .ok r) :
    ∃ jdk, jdk ∈ env.javaRuntimes ∧ requiredJdkVersion env ≤ jdk.major ∧
      r.tooling_jre = jdk.homedir ∧ r.tooling_jre_version = jdk.major ∧
      (∀ x ∈ env.javaRuntimes, requiredJdkVersion env ≤ x.major →
        rankOf jdk ≤ rankOf x) ∧
      (∀ x ∈ env.javaRuntimes, requiredJdkVersion env ≤ x.major →
        rankOf x = rankOf jdk → x.major ≤ jdk.major) := by
  rw [resolveRequirements_noPref env hdl hpref, afterHomeCheck_scan] at hok
  rcases hsort : sortJdksBySource ((sortJdksByVersion env.javaRuntimes).filter
      (fun r => decide (requiredJdkVersion env ≤ r.major))) with _ | ⟨best, rest⟩
  · rw [hsort] at hok
    obtain ⟨h1, _, _⟩ := finalize_ok _ _ _ _ _ _ hok
    exact absurd rfl h1
  · rw [hsort] at hok
    obtain ⟨hh, hv, hr⟩ := finalize_ok _ _ _ _ _ _ hok
    have hsort2 : stableSort (fun a b => decide (rankOf a ≤ rankOf b))
        ((sortJdksByVersion env.javaRuntimes).filter
          (fun r => decide (requiredJdkVersion env ≤ r.major))) = best :: rest := hsort
    have hbestv : best ∈ (sortJdksByVersion env.javaRuntimes).filter
        (fun r => decide (requiredJdkVersion env ≤ r.major)) := by
      have : best ∈ sortJdksBySource ((sortJdksByVersion env.javaRuntimes).filter
          (fun r => decide (requiredJdkVersion env ≤ r.major))) := by
        rw [hsort]
        exact List.mem_cons_self _ _
      exact (mem_sortJdksBySource _ _).mp this
    obtain ⟨hbmem, hbreq⟩ := (mem_validJdks env _ best).mp hbestv
    have hpw : ((sortJdksByVersion env.javaRuntimes).filter
        (fun r => decide (requiredJdkVersion env ≤ r.major))).Pairwise
        (fun a b => b.major ≤ a.major) := by
      have h0 := pairwise_stableSort (fun a b : IJavaRuntime => decide (b.major ≤ a.major))
        verGe_total verGe_trans env.javaRuntimes
      have h1 : (sortJdksByVersion env.javaRuntimes).Pairwise
          (fun a b => b.major ≤ a.major) :=
        h0.imp (fun h => of_decide_eq_true h)
      exact h1.filter _
    refine ⟨best, hbmem, hbreq, ?_, ?_, ?_, ?_⟩
    · rw [hr]
    · rw [hr]
    · intro x hx hxreq
      have hxv : x ∈ (sortJdksByVersion env.javaRuntimes).filter
          (fun r => decide (requiredJdkVersion env ≤ r.major)) :=
        (mem_validJdks env _ x).mpr ⟨hx, hxreq⟩
      exact of_decide_eq_true
        (stableSort_head_le _ rankLe_total rankLe_trans _ best rest hsort2 x hxv)
    · intro x hx hxreq hxrank
      have hxv : x ∈ (sortJdksByVersion env.javaRuntimes).filter
          (fun r => decide (requiredJdkVersion env ≤ r.major)) :=
        (mem_validJdks env _ x).mpr ⟨hx, hxreq⟩
      exact stableSort_head_tie _ (fun a b => b.major ≤ a.major)
        (fun a => Nat.le_refl _) _ best rest hpw hsort2 x hxv
        (decide_eq_true (le_of_eq hxrank))

/-- Qualifying candidates where the highest version has the worst rank. -/
def envC2cex : ResolveEnv :=
  { javacEnabled := false, downloadedJre := "", preferenceName := "p",
    prefJavaHome := "", expandHome := fun s => s, pathExists := fun _ => false,
    versionOf := fun _ => 0,
    javaRuntimes := [⟨"a", 21, ["PATH"]⟩, ⟨"b", 17, ["JDK_HOME"]⟩],
    configRuntimes := [], runtimeHomeOf := fun _ => none }

/-- C2 counterexample: both candidates qualify (required 17), the `PATH`
candidate has version 21, yet the resolver picks the `JDK_HOME` candidate
with version 17 — the chosen major version is NOT maximal among qualifying
candidates, because `sortJdksBySource` re-sorts by rank as the primary key. -/
theorem C2_rank_beats_version_cex :
    resolveRequirements envC2cex =
      .ok { tooling_jre := "b", tooling_jre_version := 17,
            java_home := "b", java_version := 17 } ∧
    (⟨"a", 21, ["PATH"]⟩ : IJavaRuntime) ∈ envC2cex.javaRuntimes ∧
    requiredJdkVersion envC2cex ≤ 21 ∧ (17 : Nat) < 21 := by
  exact ⟨by decide, by decide, by decide, by decide⟩

/-- Same candidates as `envC2cex`, for the amended-claim witness. -/
def envC2wit : ResolveEnv :=
  { javacEnabled := false, downloadedJre := "", preferenceName := "p",
    prefJavaHome := "", expandHome := fun s => s, pathExists := fun _ => false,
    versionOf := fun _ => 0,
    javaRuntimes := [⟨"a", 21, ["PATH"]⟩, ⟨"b", 17, ["JDK_HOME"]⟩],
    configRuntimes := [], runtimeHomeOf := fun _ => none }

set_option maxRecDepth 10000 in
/-- Witness instantiating `C2_scan_selection` on a concrete environment. -/
theorem C2_scan_selection_witness :
    ∃ jdk, jdk ∈ envC2wit.javaRuntimes ∧ requiredJdkVersion envC2wit ≤ jdk.major ∧
      ("b" : String) = jdk.homedir ∧ (17 : Nat) = jdk.major ∧
      (∀ x ∈ envC2wit.javaRuntimes, requiredJdkVersion envC2wit ≤ x.major →
        rankOf jdk ≤ rankOf x) ∧
      (∀ x ∈ envC2wit.javaRuntimes, requiredJdkVersion envC2wit ≤ x.major →
        rankOf x = rankOf jdk → x.major ≤ jdk.major) :=
  C2_scan_selection envC2wit
    { tooling_jre := "b", tooling_jre_version := 17, java_home := "b", java_version := 17 }
    rfl rfl (by decide)

/-- C5: among three qualifying candidates of equal major version tagged
`[PATH]`, `[JAVA_HOME]`, `[JDK_HOME]`, in any discovery order, the resolver
selects the `JDK_HOME`-tagged one as the tooling runtime; and the two sorts
are stable: candidates with equal rank and equal version keep their
discovery order through the whole sort pipeline. -/
theorem C5_jdk_home_tie_break (env : ResolveEnv) (c1 c2 c3 : IJavaRuntime) (v : Nat)
    (h1 : c1.sources = ["PATH"]) (h2 : c2.sources = ["JAVA_HOME"])
    (h3 : c3.sources = ["JDK_HOME"])
    (hv1 : c1.major = v) (hv2 : c2.major = v) (hv3 : c3.major = v)
    (hreq : requiredJdkVersion env ≤ v)
    (hdl : env.downloadedJre = "") (hpref : env.prefJavaHome = "")
    (hperm : env.javaRuntimes.Perm [c1, c2, c3])
    (hhome : c3.homedir ≠ "") :
    resolveRequirements env =
      .ok { tooling_jre := c3.homedir, tooling_jre_version := v,
            java_home := c3.homedir, java_version := v } ∧
    (∀ (l : List IJavaRuntime) (a b : IJavaRuntime),
      List.Sublist [a, b] l → rankOf a = rankOf b → a.major = b.major →
      List.Sublist [a, b] (sortJdksBySource (sortJdksByVersion l))) := by
  constructor
  · have hr1 : rankOf c1 = 2 := by simp [rankOf, sourcesOrder, h1]
    have hr2 : rankOf c2 = 1 := by simp [rankOf, sourcesOrder, h2]
    have hr3 : rankOf c3 = 0 := by simp [rankOf, sourcesOrder, h3]
    have hc3mem : c3 ∈ (sortJdksByVersion env.javaRuntimes).filter
        (fun r => decide (requiredJdkVersion env ≤ r.major)) :=
      (mem_validJdks env _ c3).mpr ⟨hperm.mem_iff.mpr (by simp), by rw [hv3]; exact hreq⟩
    rw [resolveRequirements_noPref env hdl hpref, afterHomeCheck_scan]
    rcases hsort : sortJdksBySource ((sortJdksByVersion env.javaRuntimes).filter
        (fun r => decide (requiredJdkVersion env ≤ r.major))) with _ | ⟨best, rest⟩
    · have := stableSort_eq_nil _ hsort
      rw [this] at hc3mem
      simp at hc3mem
    · have hsort2 : stableSort (fun a b => decide (rankOf a ≤ rankOf b))
          ((sortJdksByVersion env.javaRuntimes).filter
            (fun r => decide (requiredJdkVersion env ≤ r.major))) = best :: rest := hsort
      have hbestv : best ∈ (sortJdksByVersion env.javaRuntimes).filter
          (fun r => decide (requiredJdkVersion env ≤ r.major)) := by
        have : best ∈ sortJdksBySource ((sortJdksByVersion env.javaRuntimes).filter
            (fun r => decide (requiredJdkVersion env ≤ r.major))) := by
          rw [hsort]
          exact List.mem_cons_self _ _
        exact (mem_sortJdksBySource _ _).mp this
      have hble : rankOf best ≤ rankOf c3 := of_decide_eq_true
        (stableSort_head_le _ rankLe_total rankLe_trans _ best rest hsort2 c3 hc3mem)
      rw [hr3] at hble
      have hb123 : best ∈ [c1, c2, c3] :=
        hperm.mem_iff.mp ((mem_validJdks env _ best).mp hbestv).1
      have hbest3 : best = c3 := by
        rcases List.mem_cons.mp hb123 with hb | hb
        · rw [hb, hr1] at hble
          omega
        · rcases List.mem_cons.mp hb with hb | hb
          · rw [hb, hr2] at hble
            omega
          · exact List.mem_singleton.mp hb
      rw [hbest3]
      show finalize (requiredJdkVersion env) c3.homedir c3.major c3.homedir c3.major =
          Except.ok { tooling_jre := c3.homedir, tooling_jre_version := v,
                      java_home := c3.homedir, java_version := v }
      unfold finalize
      rw [hv3, if_neg (by push_neg; exact ⟨hhome, hreq⟩)]
  · intro l a b hs hrank hmaj
    have step1 : List.Sublist [a, b] (sortJdksByVersion l) :=
      stableSort_pair_sublist _ a b (decide_eq_true (Nat.le_of_eq hmaj.symm)) l hs
    exact stableSort_pair_sublist _ a b (decide_eq_true (Nat.le_of_eq hrank)) _ step1

/-- Three equal-version candidates, discovered in the order
`JAVA_HOME`, `JDK_HOME`, `PATH`. -/
def envC5wit : ResolveEnv :=
  { javacEnabled := false, downloadedJre := "", preferenceName := "p",
    prefJavaHome := "", expandHome := fun s => s, pathExists := fun _ => false,
    versionOf := fun _ => 0,
    javaRuntimes := [⟨"h2", 17, ["JAVA_HOME"]⟩, ⟨"h3", 17, ["JDK_HOME"]⟩,
      ⟨"h1", 17, ["PATH"]⟩],
    configRuntimes := [], runtimeHomeOf := fun _ => none }

set_option maxRecDepth 10000 in
/-- Witness instantiating `C5_jdk_home_tie_break` on concrete candidates. -/
theorem C5_jdk_home_tie_break_witness :
    resolveRequirements envC5wit =
      .ok { tooling_jre := "h3", tooling_jre_version := 17,
            java_home := "h3", java_version := 17 } ∧
    List.Sublist [(⟨"p", 3, ["PATH"]⟩ : IJavaRuntime), ⟨"q", 3, ["PATH"]⟩]
      (sortJdksBySource (sortJdksByVersion
        [⟨"p", 3, ["PATH"]⟩, ⟨"q", 3, ["PATH"]⟩])) :=
  have h := C5_jdk_home_tie_break envC5wit ⟨"h1", 17, ["PATH"]⟩
    ⟨"h2", 17, ["JAVA_HOME"]⟩ ⟨"h3", 17, ["JDK_HOME"]⟩ 17
    rfl rfl rfl rfl rfl rfl (by decide) rfl rfl (by decide) (by decide)
  ⟨h.1, h.2 [⟨"p", 3, ["PATH"]⟩, ⟨"q", 3, ["PATH"]⟩] ⟨"p", 3, ["PATH"]⟩
    ⟨"q", 3, ["PATH"]⟩ (List.Sublist.refl _) rfl rfl⟩

/-! ## Claim C3 -/

/-- Environment whose cached Lombok jar has a non-semver version token. -/
def envC3 : LombokEnv :=
  { cache := some "/r/lombok-abc.jar",
    fsExists := fun s => s = "/r/lombok-abc.jar",
    extensionLombok := some "/e/lombok-1.18.36.jar" }

/-- C3 (code bug): the probe helpers are NOT total.  For a non-empty path
that does not match the Lombok jar pattern, `lombokJarRegex.exec` returns
`null` and the unguarded `matches.length` read throws a `TypeError` (the
source's own "jar name mismatch" sentinel branch is unreachable); for a
version token that is not a valid semantic version, `semver.gte` throws
`Invalid Version`, and the exception propagates out of `addLombokParam`. -/
theorem C3_probe_helpers_throw :
    lombokPath2Version (some "/tmp/foo") =
      .error (.typeError "Cannot read properties of null (reading length)") ∧
    lombokPath2VersionNumber (some "/tmp/foo") =
      .error (.typeError "Cannot read properties of null (reading length)") ∧
    isCompatibleLombokVersion "abc" =
      .error (.invalidVersion "Invalid Version: abc") ∧
    addLombokParam envC3 [] = .error (.invalidVersion "Invalid Version: abc") := by
  exact ⟨by decide, by decide, by decide, by decide⟩

/-! ## Claim C9 -/

/-- C9: `parseMajorVersion` returns 8, 17, 0 and 0 on `"1.8.0_292"`,
`"17.0.2"`, `""` and `"bogus"`, and any version string starting with the
legacy `"1."` prefix is parsed by stripping that prefix and extracting the
first integer of the remainder. -/
theorem C9_parseMajorVersion_spec :
    parseMajorVersion "1.8.0_292" = 8 ∧ parseMajorVersion "17.0.2" = 17 ∧
    parseMajorVersion "" = 0 ∧ parseMajorVersion "bogus" = 0 ∧
    (∀ version : String, strStartsWith version "1." = true →
      parseMajorVersion version =
        match firstIntToken (version.drop 2) with
        | some n => n
        | none => 0) := by
  refine ⟨by decide, by decide, by decide, by decide, ?_⟩
  intro version h
  have hne : version ≠ "" := by
    intro he
    rw [he] at h
    exact absurd h (by decide)
  simp [parseMajorVersion, hne, h]

/-- Witness instantiating the normalization clause of
`C9_parseMajorVersion_spec` at `"1.8.0_292"`. -/
theorem C9_parseMajorVersion_spec_witness :
    parseMajorVersion "1.8.0_292" =
      match firstIntToken ("1.8.0_292".drop 2) with
      | some n => n
      | none => 0 :=
  C9_parseMajorVersion_spec.2.2.2.2 "1.8.0_292" (by decide)

/-! ## Claim C6 -/

/-- C6: when the cached Lombok path exists on disk and its parsed version is
below the 1.18.0 compatibility threshold, `addLombokParam` keeps
`isExtensionLombok = true` (the bundled jar is appended and recorded), clears
the workspace cache entry, and emits a warning containing both the rejected
version string and the bundled fallback version string. -/
theorem C6_incompatible_cached_lombok (env : LombokEnv) (params : List String)
    (c v b bv : String)
    (hc : env.cache = some c) (hcne : c ≠ "") (hfs : env.fsExists c = true)
    (hv : lombokPath2VersionNumber (some c) = .ok v)
    (hcompat : isCompatibleLombokVersion v = .ok false)
    (hext : env.extensionLombok = some b) (hbne : b ≠ "")
    (hbv : lombokPath2VersionNumber (some b) = .ok bv) :
    addLombokParam env params =
      .ok { params := params.filter (fun p => matchesLombokAgent p = false) ++
              ["-javaagent:" ++ b],
            isExtensionLombok := true, cacheCleared := true, cacheState := none,
            warnings := ["The configured lombok " ++ v ++
              " is not supported, falling back " ++ bv],
            activeLombokPath := some b } ∧
    (∃ x y : String,
      "The configured lombok " ++ v ++ " is not supported, falling back " ++ bv =
        x ++ v ++ y ++ bv) := by
  constructor
  · simp [addLombokParam, finishAddLombok, cleanupLombokCache, jsTruthy,
      hc, hext, hv, hcompat, hbv, hfs, hcne, hbne]
  · exact ⟨"The configured lombok ", " is not supported, falling back ", rfl⟩

/-- Cached incompatible 1.17.0 jar next to a bundled 1.18.36 jar. -/
def envC6wit : LombokEnv :=
  { cache := some "/r/lombok-1.17.0.jar",
    fsExists := fun s => s = "/r/lombok-1.17.0.jar",
    extensionLombok := some "/e/lombok-1.18.36.jar" }

set_option maxRecDepth 10000 in
/-- Witness instantiating `C6_incompatible_cached_lombok` at version 1.17.0. -/
theorem C6_incompatible_cached_lombok_witness :
    addLombokParam envC6wit [] =
      .ok { params := ([] : List String).filter (fun p => matchesLombokAgent p = false) ++
              ["-javaagent:" ++ "/e/lombok-1.18.36.jar"],
            isExtensionLombok := true, cacheCleared := true, cacheState := none,
            warnings := ["The configured lombok " ++ "1.17.0" ++
              " is not supported, falling back " ++ "1.18.36"],
            activeLombokPath := some "/e/lombok-1.18.36.jar" } ∧
    (∃ x y : String,
      "The configured lombok " ++ "1.17.0" ++ " is not supported, falling back " ++ "1.18.36" =
        x ++ "1.17.0" ++ y ++ "1.18.36") :=
  C6_incompatible_cached_lombok envC6wit [] "/r/lombok-1.17.0.jar" "1.17.0"
    "/e/lombok-1.18.36.jar" "1.18.36" rfl (by decide) (by decide) (by decide)
    (by decide) rfl (by decide) (by decide)

/-! ## Claim C7 -/

/-- C7: when the cached Lombok path exists on disk and its parsed version
meets the 1.18.0 threshold, `addLombokParam` sets `isExtensionLombok = false`,
appends exactly the argument `-javaagent:<cachedPath>`, leaves the cache
alone, and records the cached path as the active Lombok path. -/
theorem C7_compatible_cached_lombok (env : LombokEnv) (params : List String)
    (c v : String)
    (hc : env.cache = some c) (hcne : c ≠ "") (hfs : env.fsExists c = true)
    (hv : lombokPath2VersionNumber (some c) = .ok v)
    (hcompat : isCompatibleLombokVersion v = .ok true) :
    addLombokParam env params =
      .ok { params := params.filter (fun p => matchesLombokAgent p = false) ++
              ["-javaagent:" ++ c],
            isExtensionLombok := false, cacheCleared := false,
            cacheState := env.cache, warnings := [],
            activeLombokPath := some c } := by
  simp [addLombokParam, finishAddLombok, jsTruthy, hc, hv, hcompat, hfs, hcne]

/-- Cached compatible 1.18.30 jar. -/
def envC7wit : LombokEnv :=
  { cache := some "/r/lombok-1.18.30.jar",
    fsExists := fun s => s = "/r/lombok-1.18.30.jar",
    extensionLombok := some "/e/lombok-1.18.36.jar" }

set_option maxRecDepth 10000 in
/-- Witness instantiating `C7_compatible_cached_lombok` at version 1.18.30. -/
theorem C7_compatible_cached_lombok_witness :
    addLombokParam envC7wit [] =
      .ok { params := ([] : List String).filter (fun p => matchesLombokAgent p = false) ++
              ["-javaagent:" ++ "/r/lombok-1.18.30.jar"],
            isExtensionLombok := false, cacheCleared := false,
            cacheState := envC7wit.cache, warnings := [],
            activeLombokPath := some "/r/lombok-1.18.30.jar" } :=
  C7_compatible_cached_lombok envC7wit [] "/r/lombok-1.18.30.jar" "1.18.30"
    rfl (by decide) (by decide) (by decide) (by decide)

/-! ## Claim C10 -/

/-- C10: when the workspace cache holds a non-empty Lombok path whose file
does not exist on disk, `addLombokParam` never consults the user-supplied
`-javaagent` fallback candidate (the cache being truthy short-circuits the
`!lombokJarPath && !!lastMatchedParam` guard): for EVERY argument list it
falls straight through to the bundled jar, `isExtensionLombok` stays `true`,
the cache is not cleared, and the active path is the bundled jar when that
is available. -/
theorem C10_stale_cache_skips_fallback (env : LombokEnv) (params : List String)
    (c : String)
    (hc : env.cache = some c) (hcne : c ≠ "") (hfs : env.fsExists c = false) :
    ∃ r, addLombokParam env params = .ok r ∧ r.isExtensionLombok = true ∧
      r.cacheCleared = false ∧
      r.activeLombokPath =
        (if jsTruthy env.extensionLombok = true then env.extensionLombok else none) := by
  refine ⟨finishAddLombok env (params.filter (fun p => matchesLombokAgent p = false))
      (some c) true false env.cache [], ?_, ?_, ?_, ?_⟩
  · simp [addLombokParam, jsTruthy, hc, hcne, hfs]
  · by_cases hjs : jsTruthy env.extensionLombok = true
    · simp [finishAddLombok, hjs]
    · simp [finishAddLombok, hjs]
  · by_cases hjs : jsTruthy env.extensionLombok = true
    · simp [finishAddLombok, hjs]
    · simp [finishAddLombok, hjs]
  · by_cases hjs : jsTruthy env.extensionLombok = true
    · rcases hx : env.extensionLombok with _ | s
      · rw [hx] at hjs
        simp [jsTruthy] at hjs
      · simp [finishAddLombok, hx, jsTruthy] at hjs ⊢
        simp [hjs]
    · simp [finishAddLombok, hjs]

/-- Stale cache entry: the cached file is gone, but the stripped user
argument points at an existing compatible jar — which is ignored. -/
def envC10wit : LombokEnv :=
  { cache := some "/gone/lombok-1.18.30.jar",
    fsExists := fun s => s = "/usr/lombok-1.18.32.jar",
    extensionLombok := some "/e/lombok-1.18.36.jar" }

set_option maxRecDepth 10000 in
/-- Witness instantiating `C10_stale_cache_skips_fallback`: even though the
argument list carries `-javaagent:/usr/lombok-1.18.32.jar` whose file exists
and is version-compatible, the stale non-empty cache forces the bundled
jar. -/
theorem C10_stale_cache_skips_fallback_witness :
    ∃ r, addLombokParam envC10wit ["-javaagent:/usr/lombok-1.18.32.jar"] = .ok r ∧
      r.isExtensionLombok = true ∧ r.cacheCleared = false ∧
      r.activeLombokPath =
        (if jsTruthy envC10wit.extensionLombok = true then envC10wit.extensionLombok
         else none) :=
  C10_stale_cache_skips_fallback envC10wit ["-javaagent:/usr/lombok-1.18.32.jar"]
    "/gone/lombok-1.18.30.jar" rfl (by decide) (by decide)

/-! ## Claim C8 -/

theorem filter_matches_of_filter_not (params : List String) :
    (params.filter (fun p => matchesLombokAgent p = false)).filter
      matchesLombokAgent = [] := by
  induction params with
  | nil => simp
  | cons p ps ih =>
    by_cases h : matchesLombokAgent p = true
    · simp [List.filter_cons, h, ih]
    · simp [List.filter_cons, h, ih]

theorem finishAddLombok_params (env : LombokEnv) (p1 : List String)
    (jp : Option String) (ie cl : Bool) (cs : Option String) (ws : List String) :
    ∃ t, (finishAddLombok env p1 jp ie cl cs ws).params = p1 ++ t ∧ t.length ≤ 1 := by
  by_cases hjs : jsTruthy (if ie then env.extensionLombok else jp) = false
  · exact ⟨[], by simp [finishAddLombok, hjs], by simp⟩
  · exact ⟨["-javaagent:" ++ ((if ie then env.extensionLombok else jp).getD "")],
      by simp [finishAddLombok, hjs], by simp⟩

theorem addLombok_params_of_finish (env : LombokEnv) (params : List String)
    (r : LombokResult) (jp : Option String) (ie cl : Bool) (cs : Option String)
    (ws : List String)
    (h : finishAddLombok env (params.filter (fun p => matchesLombokAgent p = false))
      jp ie cl cs ws = r) :
    ∃ t, r.params = params.filter (fun p => matchesLombokAgent p = false) ++ t ∧
      t.length ≤ 1 := by
  obtain ⟨t, ht, hlen⟩ := finishAddLombok_params env
    (params.filter (fun p => matchesLombokAgent p = false)) jp ie cl cs ws
  exact ⟨t, by rw [← h, ht], hlen⟩

/-- C8: for every input argument list and environment, a normal return of
`addLombokParam` first removes every argument matching the Lombok
`-javaagent` pattern (an index-splice that equals a filter) and then appends
at most one fresh agent argument, so the output never contains two matching
Lombok agent arguments. -/
theorem C8_no_duplicate_agent (env : LombokEnv) (params : List String)
    (r : LombokResult) (hok : addLombokParam env params = .ok r) :
    (∃ t, r.params = params.filter (fun p => matchesLombokAgent p = false) ++ t ∧
      t.length ≤ 1) ∧
    (r.params.filter matchesLombokAgent).length ≤ 1 := by
  have key : ∃ t, r.params =
      params.filter (fun p => matchesLombokAgent p = false) ++ t ∧ t.length ≤ 1 := by
    simp only [addLombokParam] at hok
    repeat' split at hok
    all_goals
      first
      | exact addLombok_params_of_finish env params r _ _ _ _ _ (Except.ok.inj hok)
      | simp at hok
  refine ⟨key, ?_⟩
  obtain ⟨t, ht, hlen⟩ := key
  rw [ht, List.filter_append, filter_matches_of_filter_not]
  simp only [List.nil_append]
  exact Nat.le_trans (List.length_filter_le _ _) hlen

/-- No cache, bundled jar available. -/
def envC8wit : LombokEnv :=
  { cache := none, fsExists := fun _ => false,
    extensionLombok := some "/e/lombok-1.18.36.jar" }

set_option maxRecDepth 10000 in
/-- Witness instantiating `C8_no_duplicate_agent` on an argument list with
two conflicting Lombok agent entries: both are removed and only the single
fresh agent argument remains. -/
theorem C8_no_duplicate_agent_witness :
    (∃ t, (["-Xmx1g", "-javaagent:/e/lombok-1.18.36.jar"] : List String) =
      (["-javaagent:/a/lombok-1.0.jar", "-Xmx1g",
        "-javaagent:/b/lombok-2.0.jar"].filter
          (fun p => matchesLombokAgent p = false)) ++ t ∧ t.length ≤ 1) ∧
    ((["-Xmx1g", "-javaagent:/e/lombok-1.18.36.jar"] : List String).filter
      matchesLombokAgent).length ≤ 1 :=
  C8_no_duplicate_agent envC8wit
    ["-javaagent:/a/lombok-1.0.jar", "-Xmx1g", "-javaagent:/b/lombok-2.0.jar"]
    { params := ["-Xmx1g", "-javaagent:/e/lombok-1.18.36.jar"],
      isExtensionLombok := true, cacheCleared := false, cacheState := none,
      warnings := [], activeLombokPath := some "/e/lombok-1.18.36.jar" }
    (by decide)
